import Mathlib

/-!
# Verification of the Axon memory server core

Shallow embedding of the services in `apps/server/src` (MemoryService,
EizenService, EmbeddingService, quota middleware, memory schemas) and proofs
about them.  Conventions of the embedding:

* TypeScript objects become structures; `undefined`/optional fields become
  `Option`.
* JavaScript thrown `Error` values become a `JsError` structure carrying the
  runtime `name` of the error class (`"Error"` for `new Error(...)`) and its
  message; fallible functions return `Except JsError _`.
* Settled promises are modelled by their outcome (`Except`); the memoized
  promise slots of the singletons become `Option (Except ...)` state fields.
* The external vector index (eizendb) is modelled per the consumed capability:
  insert appends, element count is the length, get-by-id is positional.
* External number/text rendering (winston-to-AR strings) is passed in as data.
-/

namespace Axon

/-- A JavaScript metadata value as used by the memory metadata mapping:
recognized value shapes are strings, numbers and string arrays. -/
inductive MetaValue where
  | str (s : String)
  | num (n : Int)
  | strList (l : List String)
  deriving DecidableEq

/-- `VectorMetadata`: a string-keyed mapping, modelled as an association list
(last write wins through `mset`). -/
abbrev VectorMetadata := List (String × MetaValue)

/-- Key lookup in a metadata mapping (first binding wins; `mset` keeps keys
unique, matching JavaScript object semantics). -/
def mget (m : VectorMetadata) (k : String) : Option MetaValue :=
  (m.find? (fun p => p.1 == k)).map (fun p => p.2)

/-- Object spread followed by an explicit field, `{...m, k: v}`: any existing
binding for `k` is overwritten, never merged. -/
def mset (m : VectorMetadata) (k : String) (v : MetaValue) : VectorMetadata :=
  (m.filter (fun p => p.1 != k)) ++ [(k, v)]

/-- `(md.importance as number) || 0`: a numeric value is used as is, anything
absent (or of an unrecognized shape) coerces to 0. -/
def numValD (m : VectorMetadata) (k : String) : Int :=
  match mget m k with
  | some (MetaValue.num n) => n
  | _ => 0

/-- `(md.tags as string[]) || []`. -/
def tagsValD (m : VectorMetadata) (k : String) : List String :=
  match mget m k with
  | some (MetaValue.strList l) => l
  | _ => []

/-- `(md.client as string) || ''`. -/
def strValD (m : VectorMetadata) (k : String) : String :=
  match mget m k with
  | some (MetaValue.str s) => s
  | _ => ""

/-- `(md.content as string) || undefined`: a non-empty string survives,
the empty string (JavaScript falsy) and absence both give `undefined`. -/
def strValOpt (m : VectorMetadata) (k : String) : Option String :=
  match mget m k with
  | some (MetaValue.str s) => if s = "" then none else some s
  | _ => none

/-- JavaScript truthiness of an optional string (`if (x)`):
`undefined` and `""` are falsy. -/
def optStrTruthy : Option String → Bool
  | some s => s != ""
  | none => false

/-- Character-list prefix test, helper for `strIncludes`. -/
def startsWith : List Char → List Char → Bool
  | _, [] => true
  | [], _ :: _ => false
  | a :: as, b :: bs => a == b && startsWith as bs

/-- Character-list substring test, helper for `strIncludes`. -/
def containsSub : List Char → List Char → Bool
  | [], pat => pat.isEmpty
  | a :: as, pat => startsWith (a :: as) pat || containsSub as pat

/-- JavaScript `hay.includes(pat)` on strings (substring containment). -/
def strIncludes (hay pat : String) : Bool :=
  containsSub hay.data pat.data

/-- JavaScript `new Date(a) < new Date(b)` on the ISO-8601 timestamp strings
this service stores; ISO-8601 order coincides with lexicographic string
order, which models the Date library's comparison. -/
def dateLt (a b : String) : Bool :=
  decide (a < b)

/-- `SearchFilters` from `schemas/common` as consumed by
`MemoryService.applyFilters`. -/
structure SearchFilters where
  tags : Option (List String)
  importance_min : Option Int
  importance_max : Option Int
  client : Option String
  date_from : Option String
  date_to : Option String
  deriving DecidableEq

/-- `MemoryResult` returned by MemoryService. The distance is an opaque
score from the store (its numeric type plays no role in the claims). -/
structure MemoryResult where
  id : Nat
  content : Option String
  metadata : Option VectorMetadata
  distance : Option Int
  deriving DecidableEq

/-- The predicate of the `memories.filter(...)` callback inside
`MemoryService.applyFilters`: `true` keeps the memory.  A memory with no
metadata mapping returns `true` immediately (the code's
`if (!memory.metadata) return true`). -/
def keepMemory (filters : SearchFilters) (memory : MemoryResult) : Bool :=
  match memory.metadata with
  | none => true
  | some md =>
    -- Filter by tags
    let tagsOk :=
      match filters.tags with
      | some ftags =>
        let memoryTags := tagsValD md "tags"
        ftags.any (fun tag => memoryTags.contains tag)
      | none => true
    if !tagsOk then false else
    -- Filter by minimum importance
    let minOk :=
      match filters.importance_min with
      | some imin => !(numValD md "importance" < imin)
      | none => true
    if !minOk then false else
    -- Filter by maximum importance
    let maxOk :=
      match filters.importance_max with
      | some imax => !(imax < numValD md "importance")
      | none => true
    if !maxOk then false else
    -- Filter by client (skipped when the filter string is absent or empty,
    -- JavaScript truthiness)
    let clientOk :=
      match filters.client with
      | some fclient =>
        if fclient = "" then true
        else strIncludes (strValD md "client") fclient
      | none => true
    if !clientOk then false else
    -- Filter by date range
    let dateOk :=
      if optStrTruthy filters.date_from || optStrTruthy filters.date_to then
        let timestamp :=
          if strValD md "timestamp" != "" then strValD md "timestamp"
          else strValD md "createdAt"
        if timestamp != "" then
          let fromOk :=
            match filters.date_from with
            | some dfrom =>
              if dfrom = "" then true else !(dateLt timestamp dfrom)
            | none => true
          let toOk :=
            match filters.date_to with
            | some dto =>
              if dto = "" then true else !(dateLt dto timestamp)
            | none => true
          fromOk && toOk
        else true
      else true
    if !dateOk then false else
    true

/-- `MemoryService.applyFilters`: identity when no filters are supplied,
otherwise `Array.prototype.filter` with `keepMemory`. -/
def applyFilters (memories : List MemoryResult) (filters : Option SearchFilters) :
    List MemoryResult :=
  match filters with
  | none => memories
  | some f => memories.filter (keepMemory f)

/-- A thrown JavaScript error: the runtime `name` of its class (`"Error"` for
a plain `new Error(message)`) and its message. -/
structure JsError where
  name : String
  message : String
  deriving DecidableEq

/-- `new Error(message)`. -/
def mkError (message : String) : JsError :=
  { name := "Error", message := message }

/-- A vector embedding; the numeric payload is opaque to every claim, so
entries are modelled as integers. -/
abbrev VectorEmbedding := List Int

/-- One hit from `EizenService.searchVectors`. -/
structure EizenSearchResult where
  id : Nat
  distance : Int
  metadata : Option VectorMetadata
  deriving DecidableEq

/-- The vector index consumed from eizendb, modelled per its consumed
capability (spec: insert, k-nearest search, get-by-id, element count):
a sequence of stored (vector, metadata) pairs where insert appends,
element count is the length and get-by-id is positional. -/
abbrev Store := List (VectorEmbedding × VectorMetadata)

/-- `this.vectorDb.db.get_datasize()`: current element count. -/
def get_datasize (s : Store) : Nat := s.length

/-- `this.vectorDb.insert(vector, metadata)`: appends the pair. -/
def eizenDbInsert (s : Store) (v : VectorEmbedding) (md : VectorMetadata) : Store :=
  s ++ [(v, md)]

/-- `this.vectorDb.get_vector(id)`: positional lookup. -/
def eizenDbGetVector (s : Store) (id : Nat) : Option (VectorEmbedding × VectorMetadata) :=
  s[id]?

/-- Result of `EizenService.insertVector`. -/
structure EizenInsertResult where
  success : Bool
  vectorId : Nat
  message : String
  deriving DecidableEq

/-- `EizenService.insertVector` (success path): reads the element count
first, then inserts, and reports that pre-insert count as the new id. -/
def insertVector (s : Store) (v : VectorEmbedding) (md : VectorMetadata) :
    EizenInsertResult × Store :=
  let vectorId := get_datasize s
  let s2 := eizenDbInsert s v md
  ({ success := true
     vectorId := vectorId
     message := "Vector inserted successfully with ID: " ++ toString vectorId },
   s2)

/-- `CreateMemory` payload (`schemas/memory`): content plus optional
caller metadata. -/
structure CreateMemory where
  content : String
  metadata : Option VectorMetadata
  deriving DecidableEq

/-- Result of `MemoryService.createMemory`. -/
structure CreateMemoryResult where
  success : Bool
  memoryId : Nat
  message : String
  deriving DecidableEq

/-- The enhanced metadata built by `MemoryService.createMemory`:
`{...data.metadata, content: data.content}` (spread of `undefined` is `{}`;
a caller-supplied `content` key is overwritten, never merged). -/
def enhancedMetadata (data : CreateMemory) : VectorMetadata :=
  mset (data.metadata.getD []) "content" (MetaValue.str data.content)

/-- `MemoryService.createMemory` (success path), parametrized by the
embedding backend `embed` (text to vector). -/
def createMemory (embed : String → VectorEmbedding) (s : Store) (data : CreateMemory) :
    CreateMemoryResult × Store :=
  let embeddings := embed data.content
  let md := enhancedMetadata data
  let (result, s2) := insertVector s embeddings md
  ({ success := true
     memoryId := result.vectorId
     message := "Memory created from " ++ toString data.content.length
       ++ " characters of content" },
   s2)

/-- `MemoryService.getMemory`: `null` for an absent id, otherwise the
content read back out of the stored metadata
(`(vector.metadata?.content as string) || undefined`). -/
def getMemory (s : Store) (memoryId : Nat) : Option MemoryResult :=
  match eizenDbGetVector s memoryId with
  | none => none
  | some (_, md) =>
    some { id := memoryId
           content := strValOpt md "content"
           metadata := some md
           distance := none }

/-- `SearchMemory` payload (`schemas/memory`): the service reads `data.k`
defensively (`data.k || 10`), so it is carried as optional here. -/
structure SearchMemory where
  query : String
  k : Option Nat
  filters : Option SearchFilters
  deriving DecidableEq

/-- `data.k || 10`: `undefined` and `0` (JavaScript falsy) give 10. -/
def effectiveK (k : Option Nat) : Nat :=
  match k with
  | none => 10
  | some v => if v = 0 then 10 else v

/-- Step 3 of `MemoryService.searchMemories`: one store hit transformed into
a `MemoryResult` (`(result.metadata?.content as string) || undefined`). -/
def toMemoryResult (r : EizenSearchResult) : MemoryResult :=
  { id := r.id
    content := match r.metadata with
      | some md => strValOpt md "content"
      | none => none
    metadata := r.metadata
    distance := some r.distance }

/-- `MemoryService.searchMemories` (success path), parametrized by the
embedding backend and the store's k-nearest search `knn`:
embed the query, search with `data.k || 10`, transform, filter. -/
def searchMemories (embed : String → VectorEmbedding)
    (knn : VectorEmbedding → Nat → List EizenSearchResult)
    (data : SearchMemory) : List MemoryResult :=
  let queryEmbeddings := embed data.query
  let searchResults := knn queryEmbeddings (effectiveK data.k)
  let memories := searchResults.map toMemoryResult
  applyFilters memories data.filters

/-- The zod search schema `searchMemorySchema` field
`k: z.number().min(1).max(100).default(10)`, applied to the raw optional
field: absent defaults to 10, an explicit value outside [1, 100] is
rejected (`none`). -/
def parseSearchK (k : Option Int) : Option Int :=
  match k with
  | none => some 10
  | some v => if 1 ≤ v ∧ v ≤ 100 then some v else none

/-- An initialized Arweave configuration (`getArweaveConfig` result,
holding the wallet and warp handles); opaque to the claims, carried by
identity only. -/
structure ArweaveConfig where
  configId : Nat
  deriving DecidableEq

/-- Decidable equality on `Except`, for evaluating concrete outcomes. -/
instance {ε α : Type} [DecidableEq ε] [DecidableEq α] :
    DecidableEq (Except ε α) := fun x y =>
  match x, y with
  | Except.ok a, Except.ok b =>
    if h : a = b then isTrue (by rw [h])
    else isFalse (fun hc => by cases hc; exact h rfl)
  | Except.error a, Except.error b =>
    if h : a = b then isTrue (by rw [h])
    else isFalse (fun hc => by cases hc; exact h rfl)
  | Except.ok _, Except.error _ => isFalse (fun hc => by cases hc)
  | Except.error _, Except.ok _ => isFalse (fun hc => by cases hc)

/-- The static memoization slots of `EizenService`:
`sharedArweaveConfig` and `arweaveInitPromise`.  A promise is modelled by
its settled outcome. -/
structure SharedState where
  sharedArweaveConfig : Option ArweaveConfig
  arweaveInitPromise : Option (Except JsError ArweaveConfig)
  deriving DecidableEq

/-- `EizenService.getSharedArweaveConfig`, one call: `freshInit` is the
outcome of the `getArweaveConfig()` call this invocation would start if no
promise is memoized.  Faithful to the source: on a cached config it returns
it; otherwise it installs (or reuses) the memoized promise, and awaiting a
rejected promise throws without touching either slot — in particular the
rejected promise is left memoized. -/
def getSharedArweaveConfig (st : SharedState)
    (freshInit : Except JsError ArweaveConfig) :
    Except JsError ArweaveConfig × SharedState :=
  match st.sharedArweaveConfig with
  | some cfg => (Except.ok cfg, st)
  | none =>
    let promise :=
      match st.arweaveInitPromise with
      | some p => p
      | none => freshInit
    let st1 : SharedState :=
      { st with arweaveInitPromise := some promise }
    match promise with
    | Except.ok cfg =>
      (Except.ok cfg, { st1 with sharedArweaveConfig := some cfg })
    | Except.error e => (Except.error e, st1)

/-- `warp.arweave.ar.winstonToAr`, exactly: the AR value of a winston
balance (division by 10 to the 12 over the rationals). -/
def winstonToAr (winston : Nat) : ℚ :=
  (winston : ℚ) / (10 ^ 12 : ℚ)

/-- The environment of one `EizenService.deployNewContract` call: the
wallet's winston balance, the display string the Arweave library renders
for it, whether `NODE_ENV === 'production'`, and the outcome (contract
transaction id) of the underlying deploy call that would run. -/
structure DeployEnv where
  balanceWinston : Nat
  readableBalance : String
  isProduction : Bool
  deployOutcome : Except JsError String
  walletAddress : String

/-- A successful deployment: contract id plus wallet address. -/
structure Deployed where
  contractId : String
  walletAddress : String
  deriving DecidableEq

/-- `EizenService.deployNewContract`: checks the balance first and throws a
plain `Error` (with a dev-tip message outside production) when the readable
balance is not positive; every error escaping the `try` is re-wrapped as
`new Error('Failed to deploy contract: ' + message)`. -/
def deployNewContract (env : DeployEnv) : Except JsError Deployed :=
  let inner : Except JsError Deployed :=
    if winstonToAr env.balanceWinston ≤ 0 then
      if !env.isProduction then
        Except.error (mkError
          ("Insufficient wallet balance. Current: " ++ env.readableBalance
            ++ " AR. 💡 Dev tip: ArLocal should auto-mint tokens. Check ArLocal is running."))
      else
        Except.error (mkError
          ("Insufficient wallet balance for deployment. Current: "
            ++ env.readableBalance ++ " AR."))
    else
      match env.deployOutcome with
      | Except.ok contractTxId =>
        Except.ok { contractId := contractTxId, walletAddress := env.walletAddress }
      | Except.error e => Except.error e
  match inner with
  | Except.ok d => Except.ok d
  | Except.error e =>
    Except.error (mkError ("Failed to deploy contract: " ++ e.message))

/-- `EizenService.getStats` result. -/
structure EizenStats where
  totalVectors : Nat
  isInitialized : Bool
  contractId : String
  deriving DecidableEq

/-- `EizenService.getStats`: inside the `try`, the count is read only when a
vector database handle exists (`countOutcome` is the outcome of that
`get_datasize` call); any throw is caught and degraded to a zero count. -/
def eizenGetStats (hasVectorDb : Bool) (isInit : Bool) (contractId : String)
    (countOutcome : Except JsError Nat) : EizenStats :=
  match (if hasVectorDb then countOutcome else Except.ok 0) with
  | Except.ok n =>
    { totalVectors := n, isInitialized := isInit, contractId := contractId }
  | Except.error _ =>
    { totalVectors := 0, isInitialized := isInit, contractId := contractId }

/-- `EmbeddingService.getInfo` result. -/
structure EmbeddingInfo where
  model : String
  isInitialized : Bool
  deriving DecidableEq

/-- `MemoryService.getStats` result (`MemoryStats`); `embeddingService` is
the reported backend tag, `"xenova"` or `"unavailable"`. -/
structure MemoryStats where
  totalMemories : Nat
  embeddingService : String
  isInitialized : Bool
  deriving DecidableEq

/-- `MemoryService.getStats`: the two collaborator calls are modelled by
their outcomes; any throw inside the `try` is caught and the zeroed /
false-flagged result returned instead.  The function is total: it never
throws. -/
def memoryGetStats (eizenOutcome : Except JsError EizenStats)
    (embeddingOutcome : Except JsError EmbeddingInfo) : MemoryStats :=
  match eizenOutcome, embeddingOutcome with
  | Except.ok es, Except.ok ei =>
    { totalMemories := es.totalVectors
      embeddingService := if ei.isInitialized then "xenova" else "unavailable"
      isInitialized := es.isInitialized && ei.isInitialized }
  | _, _ =>
    { totalMemories := 0
      embeddingService := "unavailable"
      isInitialized := false }

/-- A user subscription record as consumed by the quota middleware. -/
structure Subscription where
  quotaUsed : Nat
  quotaLimit : Nat
  isActive : Bool
  deriving DecidableEq

/-- Outcome of the quota gate: an `HTTPException(status, message)` or the
request proceeding with the subscription attached to the context. -/
inductive QuotaOutcome where
  | httpError (status : Nat) (message : String)
  | allowed (subscription : Subscription)
  deriving DecidableEq

/-- `quotaMiddleware`: 401 without a (truthy) user id, 403 when no
subscription record exists, 403 when the subscription is inactive, 429 when
`quotaUsed >= quotaLimit`, otherwise the request proceeds.  `HTTPException`s
pass through the catch block unchanged. -/
def quotaMiddleware (userId : Option String)
    (subscription : Option Subscription) : QuotaOutcome :=
  if !optStrTruthy userId then
    QuotaOutcome.httpError 401 "Authentication required"
  else
    match subscription with
    | none => QuotaOutcome.httpError 403 "No active subscription found"
    | some sub =>
      if !sub.isActive then
        QuotaOutcome.httpError 403 "Subscription is inactive"
      else if sub.quotaLimit ≤ sub.quotaUsed then
        QuotaOutcome.httpError 429
          ("Quota exceeded. Used " ++ toString sub.quotaUsed ++ "/"
            ++ toString sub.quotaLimit)
      else
        QuotaOutcome.allowed sub

/-- The tensor the embedding backend returns to
`EmbeddingService.batchTextToEmbeddings`: a flat data buffer plus the shape
`dims` (entry values are opaque to the claims, modelled as integers). -/
structure TensorResponse where
  data : List Int
  dims : List Nat
  deriving DecidableEq

/-- `EmbeddingResult` from EmbeddingService. -/
structure EmbeddingResult where
  embeddings : VectorEmbedding
  dimensions : Nat
  model : String
  deriving DecidableEq

/-- `this.modelName` of the EmbeddingService singleton. -/
def modelName : String := "Xenova/all-MiniLM-L6-v2"

/-- The rank-2 loop of `batchTextToEmbeddings`: `count` remaining texts
starting at index `i`; each iteration bounds-checks the slice
`[i*dim, i*dim+dim)` against the data buffer and extracts it
(`response.data.slice(startIdx, endIdx)`). -/
def sliceBatch (dat : List Int) (dim : Nat) : Nat → Nat → Except JsError (List EmbeddingResult)
  | _, 0 => Except.ok []
  | i, count + 1 =>
    let startIdx := i * dim
    let endIdx := startIdx + dim
    if dat.length ≤ startIdx ∨ dat.length < endIdx then
      Except.error (mkError
        ("Index out of bounds: trying to slice [" ++ toString startIdx ++ ":"
          ++ toString endIdx ++ "] from data of length " ++ toString dat.length))
    else
      let embeddings := (dat.drop startIdx).take dim
      match sliceBatch dat dim (i + 1) count with
      | Except.ok rest =>
        Except.ok ({ embeddings := embeddings
                     dimensions := embeddings.length
                     model := modelName } :: rest)
      | Except.error e => Except.error e

/-- The body of the `try` block of
`EmbeddingService.batchTextToEmbeddings`: validates the last axis
(`dims.at(-1) ?? 0`), the first axis (`dims[0] ?? 0`) against
`texts.length`, then branches on the tensor rank. -/
def batchTextToEmbeddingsTry (texts : List String) (response : TensorResponse) :
    Except JsError (List EmbeddingResult) :=
  let embeddingDim := response.dims.getLast?.getD 0
  if embeddingDim ≤ 0 then
    Except.error (mkError ("Invalid embedding dimension: " ++ toString embeddingDim))
  else
    let batchDim := response.dims.head?.getD 0
    if batchDim ≠ texts.length then
      Except.error (mkError
        ("Batch dimension mismatch: expected " ++ toString texts.length
          ++ " but got " ++ toString batchDim))
    else if response.dims.length = 1 then
      if texts.length ≠ 1 then
        Except.error (mkError
          ("Expected 1 text for 1D tensor, got " ++ toString texts.length ++ " texts"))
      else
        Except.ok [{ embeddings := response.data
                     dimensions := response.data.length
                     model := modelName }]
    else if response.dims.length = 2 then
      sliceBatch response.data embeddingDim 0 texts.length
    else
      Except.error (mkError
        ("Unexpected tensor dimensionality: " ++ toString response.dims.length
          ++ "D tensor with dims ["
          ++ String.intercalate ", " (response.dims.map toString) ++ "]"))

/-- `EmbeddingService.batchTextToEmbeddings`: the `catch` re-wraps any
thrown error as `new Error('Failed to generate batch embeddings: ' + msg)`. -/
def batchTextToEmbeddings (texts : List String) (response : TensorResponse) :
    Except JsError (List EmbeddingResult) :=
  match batchTextToEmbeddingsTry texts response with
  | Except.ok results => Except.ok results
  | Except.error e =>
    Except.error (mkError ("Failed to generate batch embeddings: " ++ e.message))

/-! ## Helper lemmas -/

/-- Looking up the key just written by `mset` returns the written value. -/
theorem mget_mset_self (m : VectorMetadata) (k : String) (v : MetaValue) :
    mget (mset m k v) k = some v := by
  unfold mget mset
  induction m with
  | nil => simp [List.find?]
  | cons a m ih =>
    by_cases h : a.1 = k
    · simp only [List.filter_cons, h]
      simpa using ih
    · simp only [List.filter_cons, List.find?, h]
      simpa [List.find?, h] using ih

/-- Content read-back after the `createMemory` overwrite. -/
theorem strValOpt_mset_content (m : VectorMetadata) (c : String) :
    strValOpt (mset m "content" (MetaValue.str c)) "content"
      = if c = "" then none else some c := by
  unfold strValOpt
  rw [mget_mset_self]

/-- A memory that survives `keepMemory` under a present `importance_min`
filter and has a present metadata mapping satisfies the importance bound. -/
theorem keepMemory_importance_min (f : SearchFilters) (m : MemoryResult)
    (md : VectorMetadata) (imin : Int)
    (hmd : m.metadata = some md) (hmin : f.importance_min = some imin)
    (hkeep : keepMemory f m = true) :
    imin ≤ numValD md "importance" := by
  unfold keepMemory at hkeep
  rw [hmd, hmin] at hkeep
  by_contra hle
  push_neg at hle
  simp [hle] at hkeep

/-! ## Claim theorems -/

/-- A search hit whose store metadata is entirely absent, used to refute the
universal form of the importance filter claim. -/
def bareHit : EizenSearchResult :=
  { id := 0, distance := 1, metadata := none }

/-- The filters of the refuting search: `importance_min = 5`, nothing else. -/
def importanceMin5Filters : SearchFilters :=
  { tags := none, importance_min := some 5, importance_max := none,
    client := none, date_from := none, date_to := none }

/-- C1, counterexample: a search with `importance_min = 5` (which is ≥ 1)
against a store hit whose metadata mapping is entirely absent returns that
hit unchanged — its metadata (hence its importance) is absent, contradicting
the claim that no returned hit has importance absent. -/
theorem searchMemories_returns_metadataless_hit_under_importance_min :
    searchMemories (fun _ => []) (fun _ _ => [bareHit])
        { query := "q", k := some 5, filters := some importanceMin5Filters }
      = [{ id := 0, content := none, metadata := none, distance := some 1 }]
    ∧ ({ id := 0, content := none, metadata := none,
         distance := some 1 } : MemoryResult).metadata = none := by
  exact ⟨by decide, rfl⟩

/-- C1, amended: for every search invocation with `importance_min = m`, every
hit returned by `searchMemories` whose metadata mapping is present has
importance at least `m` (a missing importance key counts as 0 and fails any
`m ≥ 1` bound); hits whose metadata mapping is entirely absent bypass the
filters and may be returned. -/
theorem searchMemories_importance_min_on_present_metadata
    (embed : String → VectorEmbedding)
    (knn : VectorEmbedding → Nat → List EizenSearchResult)
    (data : SearchMemory) (f : SearchFilters) (imin : Int)
    (hf : data.filters = some f) (hmin : f.importance_min = some imin)
    (hit : MemoryResult) (hmem : hit ∈ searchMemories embed knn data)
    (md : VectorMetadata) (hmd : hit.metadata = some md) :
    imin ≤ numValD md "importance" := by
  simp only [searchMemories, applyFilters, hf] at hmem
  exact keepMemory_importance_min f hit md imin hmd hmin (List.of_mem_filter hmem)

/-- A store hit with a present metadata mapping carrying importance 7. -/
def importance7Hit : EizenSearchResult :=
  { id := 0, distance := 1, metadata := some [("importance", MetaValue.num 7)] }

/-- C1, witness: a concrete search with `importance_min = 5` whose surviving
hit has present metadata; the theorem bounds its importance. -/
theorem searchMemories_importance_min_witness :
    (5 : Int) ≤ numValD [("importance", MetaValue.num 7)] "importance" :=
  searchMemories_importance_min_on_present_metadata
    (fun _ => []) (fun _ _ => [importance7Hit])
    { query := "q", k := none, filters := some importanceMin5Filters }
    importanceMin5Filters 5 rfl rfl
    { id := 0, content := none,
      metadata := some [("importance", MetaValue.num 7)], distance := some 1 }
    (by decide) [("importance", MetaValue.num 7)] rfl

/-- C3: for every `createMemory` call (with non-empty content of at most
10000 characters and any caller metadata, even one carrying a `content`
key), the stored metadata's `content` field equals the original content
exactly, and `getMemory` on the returned id yields that content back. -/
theorem createMemory_getMemory_roundtrip (embed : String → VectorEmbedding)
    (s : Store) (data : CreateMemory)
    (hne : data.content ≠ "") (hlen : data.content.length ≤ 10000) :
    mget (enhancedMetadata data) "content" = some (MetaValue.str data.content)
    ∧ getMemory (createMemory embed s data).2 (createMemory embed s data).1.memoryId
        = some { id := (createMemory embed s data).1.memoryId
                 content := some data.content
                 metadata := some (enhancedMetadata data)
                 distance := none } := by
  refine ⟨mget_mset_self _ _ _, ?_⟩
  have h1 : (createMemory embed s data).2
      = s ++ [(embed data.content, enhancedMetadata data)] := rfl
  have h2 : (createMemory embed s data).1.memoryId = s.length := rfl
  rw [h1, h2]
  unfold getMemory eizenDbGetVector
  rw [List.getElem?_concat_length]
  simp [enhancedMetadata, strValOpt_mset_content, hne]

/-- Concrete `createMemory` payload whose caller metadata already carries a
`content` key (to be overwritten). -/
def demoCreate : CreateMemory :=
  { content := "hi"
    metadata := some [("content", MetaValue.str "junk"), ("importance", MetaValue.num 7)] }

/-- C3, witness: the round trip at a concrete payload. -/
theorem createMemory_getMemory_roundtrip_witness :
    mget (enhancedMetadata demoCreate) "content" = some (MetaValue.str "hi")
    ∧ getMemory (createMemory (fun _ => [1]) [] demoCreate).2
          (createMemory (fun _ => [1]) [] demoCreate).1.memoryId
        = some { id := (createMemory (fun _ => [1]) [] demoCreate).1.memoryId
                 content := some "hi"
                 metadata := some (enhancedMetadata demoCreate)
                 distance := none } :=
  createMemory_getMemory_roundtrip (fun _ => [1]) [] demoCreate
    (by decide) (by decide)

/-- C5: every insert assigns the id read from the element count immediately
before the insert (read-then-write), and the first `createMemory` on an
empty store returns success with `memoryId = 0`. -/
theorem insertVector_assigns_precount_id :
    (∀ (s : Store) (v : VectorEmbedding) (md : VectorMetadata),
      (insertVector s v md).1.success = true
      ∧ (insertVector s v md).1.vectorId = get_datasize s)
    ∧ ∀ (embed : String → VectorEmbedding) (data : CreateMemory),
      (createMemory embed [] data).1.success = true
      ∧ (createMemory embed [] data).1.memoryId = 0 :=
  ⟨fun _ _ _ => ⟨rfl, rfl⟩, fun _ _ => ⟨rfl, rfl⟩⟩

/-- C7: the list `searchMemories` returns is a sublist (order-preserving
subsequence, no duplication, no re-sorting) of the transformed hit list the
underlying store search produced, for every query, k and filter choice. -/
theorem searchMemories_sublist_of_store_hits (embed : String → VectorEmbedding)
    (knn : VectorEmbedding → Nat → List EizenSearchResult) (data : SearchMemory) :
    (searchMemories embed knn data).Sublist
      ((knn (embed data.query) (effectiveK data.k)).map toMemoryResult) := by
  cases hf : data.filters with
  | none => simp [searchMemories, applyFilters, hf]
  | some f =>
    simp only [searchMemories, applyFilters, hf]
    exact List.filter_sublist _

/-- C10: with `k` absent the service calls the store search with `k = 10`;
the schema defaults an absent `k` to 10 and accepts an explicit `k` exactly
when it lies in [1, 100] (returning it unchanged). -/
theorem searchMemories_default_k (embed : String → VectorEmbedding)
    (knn : VectorEmbedding → Nat → List EizenSearchResult)
    (data : SearchMemory) (hk : data.k = none) :
    searchMemories embed knn data
      = applyFilters ((knn (embed data.query) 10).map toMemoryResult) data.filters
    ∧ parseSearchK none = some 10
    ∧ ∀ v r : Int, parseSearchK (some v) = some r → r = v ∧ 1 ≤ r ∧ r ≤ 100 := by
  refine ⟨by simp [searchMemories, effectiveK, hk], rfl, ?_⟩
  intro v r h
  simp only [parseSearchK] at h
  split at h
  · rename_i hcond
    cases h
    exact ⟨rfl, hcond⟩
  · cases h

/-- C10, witness: the default and the bounds at concrete inputs. -/
theorem searchMemories_default_k_witness :
    (searchMemories (fun _ => [0]) (fun _ _ => [])
        { query := "q", k := none, filters := none }
      = applyFilters (([] : List EizenSearchResult).map toMemoryResult) none)
    ∧ ((50 : Int) = 50 ∧ 1 ≤ (50 : Int) ∧ (50 : Int) ≤ 100) :=
  ⟨(searchMemories_default_k (fun _ => [0]) (fun _ _ => [])
      { query := "q", k := none, filters := none } rfl).1,
   (searchMemories_default_k (fun _ => [0]) (fun _ _ => [])
      { query := "q", k := none, filters := none } rfl).2.2 50 50 (by decide)⟩

/-- C2: contrary to the claim, a failed shared-config initialization IS
cached: a first call whose `getArweaveConfig()` rejects returns the failure
and leaves the rejected promise memoized in `arweaveInitPromise`, so a
second call observes the same failure even though a fresh initialization
would now succeed — the in-flight state is never cleared on failure. -/
theorem getSharedArweaveConfig_failure_remains_cached :
    (getSharedArweaveConfig { sharedArweaveConfig := none, arweaveInitPromise := none }
        (Except.error (mkError "Arweave init failed"))).1
      = Except.error (mkError "Arweave init failed")
    ∧ (getSharedArweaveConfig { sharedArweaveConfig := none, arweaveInitPromise := none }
        (Except.error (mkError "Arweave init failed"))).2.arweaveInitPromise
      = some (Except.error (mkError "Arweave init failed"))
    ∧ (getSharedArweaveConfig
        (getSharedArweaveConfig { sharedArweaveConfig := none, arweaveInitPromise := none }
          (Except.error (mkError "Arweave init failed"))).2
        (Except.ok { configId := 1 })).1
      = Except.error (mkError "Arweave init failed") := by
  exact ⟨by decide, by decide, by decide⟩

/-- The deploy environment of the refutation: zero balance, production. -/
def zeroBalanceProdEnv : DeployEnv :=
  { balanceWinston := 0, readableBalance := "0", isProduction := true,
    deployOutcome := Except.ok "ctr-tx", walletAddress := "wallet-addr" }

/-- C6, counterexample: on a zero-balance production identity,
`deployNewContract` fails with a plain `Error` (runtime class name
`"Error"`), not a distinct `DeploymentError` type — no such error class
exists in the code. -/
theorem deployNewContract_zero_balance_plain_error :
    deployNewContract zeroBalanceProdEnv
      = Except.error (mkError
          "Failed to deploy contract: Insufficient wallet balance for deployment. Current: 0 AR.")
    ∧ (mkError
        "Failed to deploy contract: Insufficient wallet balance for deployment. Current: 0 AR.").name
      = "Error" := by
  constructor
  · unfold deployNewContract winstonToAr zeroBalanceProdEnv
    norm_num
    rfl
  · rfl

/-- Every error `deployNewContract` produces is a plain generic `Error`
(the final wrap constructs it with `new Error(...)`). -/
theorem deployNewContract_error_name (env : DeployEnv) (e : JsError)
    (he : deployNewContract env = Except.error e) : e.name = "Error" := by
  unfold deployNewContract at he
  split at he
  · split at he
    · cases he
      rfl
    · cases he
      rfl
  · split at he
    · cases he
    · cases he
      rfl

/-- C6, amended: on a zero balance `deployNewContract` fails fast with a
descriptive message — production and development are distinguished by
different messages (the development one carries the ArLocal dev tip) — but
the thrown value is always a plain generic `Error` (wrapped as
`Failed to deploy contract: ...`), never a distinct `DeploymentError`. -/
theorem deployNewContract_zero_balance_behavior (env : DeployEnv)
    (hz : env.balanceWinston = 0) :
    (env.isProduction = true →
      deployNewContract env = Except.error (mkError
        ("Failed to deploy contract: Insufficient wallet balance for deployment. Current: "
          ++ env.readableBalance ++ " AR.")))
    ∧ (env.isProduction = false →
      deployNewContract env = Except.error (mkError
        ("Failed to deploy contract: Insufficient wallet balance. Current: "
          ++ env.readableBalance
          ++ " AR. 💡 Dev tip: ArLocal should auto-mint tokens. Check ArLocal is running.")))
    ∧ ∀ e : JsError, deployNewContract env = Except.error e → e.name = "Error" := by
  have hba : winstonToAr env.balanceWinston ≤ 0 := by
    rw [hz]; unfold winstonToAr; norm_num
  refine ⟨?_, ?_, ?_⟩
  · intro hp
    unfold deployNewContract
    rw [if_pos hba, hp]
    rfl
  · intro hp
    unfold deployNewContract
    rw [if_pos hba, hp]
    rfl
  · intro e he
    exact deployNewContract_error_name env e he

/-- The deploy environment of the witness: zero balance, development. -/
def zeroBalanceDevEnv : DeployEnv :=
  { balanceWinston := 0, readableBalance := "0", isProduction := false,
    deployOutcome := Except.ok "ctr-tx", walletAddress := "wallet-addr" }

/-- C6, witness: the amended behavior at a concrete zero-balance
development environment. -/
theorem deployNewContract_zero_balance_behavior_witness :
    deployNewContract zeroBalanceDevEnv = Except.error (mkError
      ("Failed to deploy contract: Insufficient wallet balance. Current: "
        ++ zeroBalanceDevEnv.readableBalance
        ++ " AR. 💡 Dev tip: ArLocal should auto-mint tokens. Check ArLocal is running.")) :=
  (deployNewContract_zero_balance_behavior zeroBalanceDevEnv rfl).2.1 rfl

/-- C8: the quota gate distinguishes its three rejection cases — missing
subscription (403, `No active subscription found`), inactive subscription
(403, `Subscription is inactive`), exhausted quota (429) — and lets every
other request proceed with the subscription attached. -/
theorem quotaMiddleware_case_analysis (userId : Option String)
    (sub : Option Subscription) (huid : optStrTruthy userId = true) :
    (sub = none →
      quotaMiddleware userId sub = QuotaOutcome.httpError 403 "No active subscription found")
    ∧ (∀ s, sub = some s → s.isActive = false →
      quotaMiddleware userId sub = QuotaOutcome.httpError 403 "Subscription is inactive")
    ∧ (∀ s, sub = some s → s.isActive = true → s.quotaLimit ≤ s.quotaUsed →
      quotaMiddleware userId sub = QuotaOutcome.httpError 429
        ("Quota exceeded. Used " ++ toString s.quotaUsed ++ "/" ++ toString s.quotaLimit))
    ∧ (∀ s, sub = some s → s.isActive = true → s.quotaUsed < s.quotaLimit →
      quotaMiddleware userId sub = QuotaOutcome.allowed s) := by
  refine ⟨?_, ?_, ?_, ?_⟩
  · intro hs
    simp [quotaMiddleware, huid, hs]
  · intro s hs hact
    simp [quotaMiddleware, huid, hs, hact]
  · intro s hs hact hq
    simp [quotaMiddleware, huid, hs, hact, hq, Nat.not_lt.mpr hq]
  · intro s hs hact hq
    simp [quotaMiddleware, huid, hs, hact, Nat.not_le.mpr hq, hq]

/-- C8, witness: the quota-exhausted case at a concrete subscription. -/
theorem quotaMiddleware_case_analysis_witness :
    quotaMiddleware (some "user-1") (some { quotaUsed := 5, quotaLimit := 3, isActive := true })
      = QuotaOutcome.httpError 429 ("Quota exceeded. Used " ++ toString 5 ++ "/" ++ toString 3) :=
  (quotaMiddleware_case_analysis (some "user-1")
      (some { quotaUsed := 5, quotaLimit := 3, isActive := true }) (by decide)).2.2.1
    { quotaUsed := 5, quotaLimit := 3, isActive := true } rfl rfl (by decide)

/-- C9: `memoryGetStats` is a total function of its collaborators' outcomes
(it never throws), and whenever the store statistics call or the embedding
info retrieval failed, it returns the zeroed / false-flagged result. -/
theorem memoryGetStats_degrades_on_failure
    (ez : Except JsError EizenStats) (em : Except JsError EmbeddingInfo)
    (h : (∃ e, ez = Except.error e) ∨ (∃ e, em = Except.error e)) :
    memoryGetStats ez em
      = { totalMemories := 0, embeddingService := "unavailable", isInitialized := false } := by
  cases ez with
  | error e => rfl
  | ok es =>
    cases em with
    | error e => rfl
    | ok ei =>
      rcases h with ⟨e, he⟩ | ⟨e, he⟩ <;> cases he

/-- C9, witness: a concrete failing store statistics call degrades to the
zeroed result. -/
theorem memoryGetStats_degrades_on_failure_witness :
    memoryGetStats (Except.error (mkError "stats backend down"))
        (Except.ok { model := modelName, isInitialized := true })
      = { totalMemories := 0, embeddingService := "unavailable", isInitialized := false } :=
  memoryGetStats_degrades_on_failure _ _ (Or.inl ⟨mkError "stats backend down", rfl⟩)

/-- C4, counterexample: a rank-1 tensor whose single axis length (2) equals
the declared dimensionality and exceeds 0, with exactly one input text,
does NOT succeed: the batch-size check runs before the rank-1 branch and
fails (`dims[0] = 2 ≠ 1` text), so the call errors instead of returning one
result. -/
theorem batchTextToEmbeddings_singleton_rank1_mismatch :
    batchTextToEmbeddings ["a"] { data := [0, 1], dims := [2] }
      = Except.error (mkError
          "Failed to generate batch embeddings: Batch dimension mismatch: expected 1 but got 2") := by
  decide

/-- C4, amended: for a rank-1 response of positive axis length `d`, the
batch-size check precedes the rank check: the call succeeds (with exactly
one result holding the whole buffer) only when there is exactly one input
text and `d = 1`; when `d` differs from the number of texts it fails with
the batch-dimension-mismatch error even for a single text; when `d` equals
a text count above 1 it fails with the expected-1-text rank error; and any
rank other than 1 or 2 always fails. -/
theorem batchTextToEmbeddings_rank_cases (texts : List String)
    (resp : TensorResponse) (d : Nat) (hd : resp.dims = [d]) (hpos : 0 < d) :
    (texts.length = 1 → d = 1 →
      batchTextToEmbeddings texts resp
        = Except.ok [{ embeddings := resp.data
                       dimensions := resp.data.length
                       model := modelName }])
    ∧ (d ≠ texts.length →
      batchTextToEmbeddings texts resp
        = Except.error (mkError ("Failed to generate batch embeddings: "
            ++ ("Batch dimension mismatch: expected " ++ toString texts.length
              ++ " but got " ++ toString d))))
    ∧ (d = texts.length → texts.length ≠ 1 →
      batchTextToEmbeddings texts resp
        = Except.error (mkError ("Failed to generate batch embeddings: "
            ++ ("Expected 1 text for 1D tensor, got " ++ toString texts.length
              ++ " texts"))))
    ∧ ∀ (texts2 : List String) (resp2 : TensorResponse),
        resp2.dims.length ≠ 1 → resp2.dims.length ≠ 2 →
        ∃ e, batchTextToEmbeddings texts2 resp2 = Except.error e := by
  have h0 : ¬ d ≤ 0 := Nat.not_le.mpr hpos
  refine ⟨?_, ?_, ?_, ?_⟩
  · intro hlen1 hd1
    simp [batchTextToEmbeddings, batchTextToEmbeddingsTry, hd, hlen1, hd1]
  · intro hne
    simp [batchTextToEmbeddings, batchTextToEmbeddingsTry, mkError, hd, h0, hne]
  · intro heq hne1
    subst heq
    simp [batchTextToEmbeddings, batchTextToEmbeddingsTry, mkError, hd, h0, hne1]
  · intro texts2 resp2 h1 h2
    unfold batchTextToEmbeddings batchTextToEmbeddingsTry
    split
    · rename_i rest heq
      exfalso
      simp only [if_neg h1, if_neg h2] at heq
      split at heq
      · cases heq
      · split at heq
        · cases heq
        · cases heq
    · exact ⟨_, rfl⟩

/-- C4, witness: the one rank-1 shape the code accepts — a single text with
a one-entry axis — succeeds with exactly one result. -/
theorem batchTextToEmbeddings_rank_cases_witness :
    batchTextToEmbeddings ["a"] { data := [5], dims := [1] }
      = Except.ok [{ embeddings := [5], dimensions := 1, model := modelName }] :=
  (batchTextToEmbeddings_rank_cases ["a"] { data := [5], dims := [1] } 1
    rfl (by decide)).1 rfl rfl

end Axon
